import Mathlib

/-!
Verification development for the OptionSniper option screener.

Shallow embedding conventions:
* Python floats that only flow through comparisons and field arithmetic are
  modelled as `ℚ`; a float `nan` used as a "no value" sentinel is modelled
  as `Option` (`none` = NaN / undefined).
* The transcendental Black-Scholes layer is modelled over `ℝ`, with the
  normal CDF given by the Gaussian measure of a left ray.
* Each `namespace` below corresponds to one source file of the repository
  (`Checklist` ~ src/sellput_checker/checklist.py, `Calculations` ~
  calculations.py, `Cli` ~ cli.py, `App` ~ app.py, `CondorPage` ~
  pages/iron_condor.py, `BtPage` ~ pages/iron_butterfly.py).
-/

namespace OptionSniper

/-- Option kind, the `Literal["put", "call"]` of the source. -/
inductive OptKind where
  | put
  | call
deriving DecidableEq, Repr

namespace Checklist

/-- checklist.py `_mid_and_source(bid, ask, last_price)`: the inputs are the
already-coerced values (`float(x or 0.0)`); the first component is the mid
(`none` models the float NaN returned in the last branch), the second the
provenance tag string. -/
def mid_and_source (bid ask last_price : ℚ) : Option ℚ × String :=
  if 0 < bid ∧ 0 < ask then (some (0.5 * (bid + ask)), "B/A")
  else if 0 < bid ∧ ask ≤ 0 then (some bid, "Bid")
  else if 0 < ask ∧ bid ≤ 0 then (some ask, "Ask")
  else if 0 < last_price then (some last_price, "LAST")
  else (none, "UNKNOWN")

/-- checklist.py `_spread(bid, ask)`: `max(0.0, a - b)` when both sides are
quoted strictly positively, NaN (modelled `none`) otherwise. -/
def spread (bid ask : ℚ) : Option ℚ :=
  if 0 < bid ∧ 0 < ask then some (max 0 (ask - bid)) else none

/-- checklist.py `evaluate_chain_df`, criterion `ok_delta`
(`(delta <= delta_high) & delta.notna()`): a pandas comparison against NaN is
false, so an undefined delta fails. -/
def ok_delta (delta : Option ℚ) (delta_high : ℚ) : Bool :=
  match delta with
  | some d => decide (d ≤ delta_high)
  | none => false

/-- checklist.py criterion `ok_iv`
(`(iv >= iv_min) & (iv <= iv_max) & iv.notna()`). -/
def ok_iv (iv : Option ℚ) (iv_min iv_max : ℚ) : Bool :=
  match iv with
  | some v => decide (iv_min ≤ v) && decide (v ≤ iv_max)
  | none => false

/-- checklist.py criterion `ok_spread`
(`(spread <= max_spread) | spread.isna()`): an unknown spread passes. -/
def ok_spread (spr : Option ℚ) (max_spread : ℚ) : Bool :=
  match spr with
  | some s => decide (s ≤ max_spread)
  | none => true

/-- checklist.py criterion `ok_volume` (`volume >= min_volume`). -/
def ok_volume (volume min_volume : ℤ) : Bool :=
  decide (min_volume ≤ volume)

/-- checklist.py criterion `ok_annual` (`annualized_return >= min_annual`). -/
def ok_annual (ar min_annual : ℚ) : Bool :=
  decide (min_annual ≤ ar)

/-- checklist.py combined flag `ok_all`: conjunction of the five criteria. -/
def ok_all (delta iv spr : Option ℚ) (volume : ℤ) (ar : ℚ)
    (delta_high iv_min iv_max : ℚ) (max_spread : ℚ) (min_volume : ℤ)
    (min_annual : ℚ) : Bool :=
  ok_delta delta delta_high && ok_iv iv iv_min iv_max &&
    ok_spread spr max_spread && ok_volume volume min_volume &&
    ok_annual ar min_annual

/-- checklist.py `_single_return(premium_mid, capital)`. -/
def single_return (premium_mid capital : ℚ) : ℚ :=
  if capital ≤ 0 then 0 else premium_mid * 100 / capital

/-- checklist.py `_annualized_return(premium_mid, capital, days_to_exp)`. -/
def annualized_return (premium_mid capital : ℚ) (days_to_exp : ℤ) : ℚ :=
  if capital ≤ 0 ∨ days_to_exp ≤ 0 then 0
  else single_return premium_mid capital * (365 / (days_to_exp : ℚ))

end Checklist

namespace Calculations

/-- calculations.py `single_return(premium, margin, multiplier)`. -/
def single_return (premium margin multiplier : ℚ) : ℚ :=
  if margin ≤ 0 then 0 else premium * multiplier / margin

/-- calculations.py `annualized_return(premium, margin, days_to_exp,
multiplier)`: divides the single-period return by `days_to_exp / 365`. -/
def annualized_return (premium margin : ℚ) (days_to_exp : ℤ)
    (multiplier : ℚ) : ℚ :=
  if margin ≤ 0 ∨ days_to_exp ≤ 0 then 0
  else single_return premium margin multiplier / ((days_to_exp : ℚ) / 365)

end Calculations

namespace Cli

/-- cli.py `evaluate_chain_df` mid/provenance computation: `np.select` takes
the first matching condition among `has_ba`, `has_bid ∧ ¬has_ask`,
`has_ask ∧ ¬has_bid`, `¬has_ba ∧ has_last`, with NaN/`UNKNOWN` as default;
`has_*` test the NaN-coalesced value against `> 0`. -/
def mid_and_source (bid ask last_price : ℚ) : Option ℚ × String :=
  let has_bid := 0 < bid
  let has_ask := 0 < ask
  if has_bid ∧ has_ask then (some ((bid + ask) / 2), "B/A")
  else if has_bid ∧ ¬has_ask then (some bid, "Bid")
  else if has_ask ∧ ¬has_bid then (some ask, "Ask")
  else if ¬(has_bid ∧ has_ask) ∧ 0 < last_price then (some last_price, "LAST")
  else (none, "UNKNOWN")

end Cli

namespace Checklist

/-- checklist.py `_infer_kind_from_symbol(cs)`: `re.search` for the pattern
letter `C`/`P` followed by eight digits at the end of the string succeeds
exactly when the last eight characters are digits and the ninth-from-last is
`C` or `P`; the embedding tests this through the reversed character list.
`Char.isDigit` models the regex digit class on the ASCII contract symbols. -/
def infer_kind_from_symbol (cs : String) : Option OptKind :=
  if (cs.data.reverse.take 8).length = 8 ∧
      (cs.data.reverse.take 8).all Char.isDigit = true then
    match cs.data.reverse[8]? with
    | some c =>
      if c = 'C' then some OptKind.call
      else if c = 'P' then some OptKind.put
      else none
    | none => none
  else none

/-- checklist.py `evaluate_chain_df` (`auto` kind): the first non-null entry
of the `contract_symbol` column (`dropna().iloc[0]`), `none` when the column
is absent or all null. -/
def first_non_null : List (Option String) → Option String
  | [] => none
  | none :: rest => first_non_null rest
  | some s :: _ => some s

/-- checklist.py `evaluate_chain_df` (`auto` kind): `eff_kind` is the
inferred kind of the first non-null symbol, defaulting to `put`; the Python
truthiness test `if cs0` sends an empty first symbol to the default too. -/
def eff_kind_auto (syms : List (Option String)) : OptKind :=
  match first_non_null syms with
  | none => OptKind.put
  | some cs =>
    if cs = "" then OptKind.put
    else
      match infer_kind_from_symbol cs with
      | some k => k
      | none => OptKind.put

end Checklist

namespace Parsing

/-- Decimal value of a digit list (used only on all-digit lists). -/
def dec_val (cs : List Char) : ℕ :=
  cs.foldl (fun acc c => acc * 10 + (c.toNat - '0'.toNat)) 0

/-- Python `float(token)` on an unsigned token: digits with an optional
single decimal point; `none` where `float` raises `ValueError`.  (Restricted
to plain decimal literals, which is what the wing-width inputs contain.) -/
def parse_unsigned? (cs : List Char) : Option ℚ :=
  match cs.dropWhile Char.isDigit with
  | [] => if cs.takeWhile Char.isDigit = [] then none
          else some (dec_val (cs.takeWhile Char.isDigit) : ℚ)
  | '.' :: frac =>
    if frac.all Char.isDigit ∧ (cs.takeWhile Char.isDigit ≠ [] ∨ frac ≠ []) then
      some ((dec_val (cs.takeWhile Char.isDigit) : ℚ) +
        (dec_val frac : ℚ) / 10 ^ frac.length)
    else none
  | _ => none

/-- Python `float(token)` including an optional leading sign. -/
def parse_float? (cs : List Char) : Option ℚ :=
  match cs with
  | '-' :: rest => (parse_unsigned? rest).map (fun q => -q)
  | '+' :: rest => parse_unsigned? rest
  | _ => parse_unsigned? cs

/-- Python `str.split(",")`. -/
def split_commas : List Char → List (List Char)
  | [] => [[]]
  | c :: rest =>
    if c = ',' then [] :: split_commas rest
    else
      match split_commas rest with
      | [] => [[c]]
      | t :: ts => (c :: t) :: ts

/-- Python `str.strip()`. -/
def trim_ws (cs : List Char) : List Char :=
  ((cs.dropWhile Char.isWhitespace).reverse.dropWhile Char.isWhitespace).reverse

/-- Tokenization common to all three wing-width parsers:
`[x.strip() for x in str(s).split(",") if x.strip() != ""]`. -/
def wing_tokens (s : String) : List (List Char) :=
  ((split_commas s.data).map trim_ws).filter (fun t => t ≠ [])

/-- The Python list comprehension over `float`: left to right, the first
failing token aborts the whole list (the `except` arm of the callers). -/
def parse_all? : List (List Char) → Option (List ℚ)
  | [] => some []
  | t :: ts =>
    match parse_float? t, parse_all? ts with
    | some q, some qs => some (q :: qs)
    | _, _ => none

/-- app.py iron-condor wing-width parsing (`wing_list_ic`): a `float`
failure yields `[]` via the `except` arm, and an empty list then falls back
to the default `[3.0, 5.0, 10.0]`. -/
def wing_list_app (s : String) : List ℚ :=
  match parse_all? (wing_tokens s) with
  | some xs => if xs = [] then [3, 5, 10] else xs
  | none => [3, 5, 10]

/-- pages/iron_butterfly.py wing-width parsing (`wing_list`), same
failure/empty fallback to `[3.0, 5.0, 10.0]` as app.py. -/
def wing_list_bt (s : String) : List ℚ :=
  match parse_all? (wing_tokens s) with
  | some xs => if xs = [] then [3, 5, 10] else xs
  | none => [3, 5, 10]

/-- pages/iron_condor.py `render` wing-width parsing: a `float` failure
falls back to `[5.0]`, and an empty token list stays empty (no default). -/
def wing_list_condor_page (s : String) : List ℚ :=
  match parse_all? (wing_tokens s) with
  | some xs => xs
  | none => [5]

end Parsing

/-- One evaluator-enriched option-chain row, carrying the fields the
combination builders read (`mid` for the condor page, `mid_used` for app.py
and the butterfly page). -/
structure Leg where
  strike : ℚ
  mid : ℚ
  mid_used : ℚ
  spread : ℚ
  volume : ℤ
deriving DecidableEq, Repr

/-- Pandas `(df["strike"] - target).abs().idxmin()` followed by `df.loc`:
the first row attaining the minimal absolute strike distance (`none` on an
empty chain, where pandas raises instead). -/
def nearest_leg : List Leg → ℚ → Option Leg
  | [], _ => none
  | l :: ls, t =>
    match nearest_leg ls t with
    | none => some l
    | some m => if |m.strike - t| < |l.strike - t| then some m else some l

namespace App

/-- One iron-condor candidate row as assembled by the app.py builder. -/
structure CondorRow where
  sell_put : ℚ
  buy_put : ℚ
  sell_call : ℚ
  buy_call : ℚ
  credit : ℚ
  width : ℚ
  max_profit : ℚ
  max_loss : ℚ
  be_low : ℚ
  be_high : ℚ
deriving DecidableEq, Repr

/-- app.py iron-condor inner loop body for one requested wing width `w`
(given the already-selected short legs `sp`, `sc`): protective legs at the
strikes nearest `sp.strike - w` and `sc.strike + w`, net credit from the
`mid_used` premiums, and the structure is discarded when `width ≤ 0` or
`credit ≤ 0` (the `np.isfinite` test cannot fail in the rational model).
The reported width and the max-loss formula both use the requested `w`,
not the realized long-leg distances. -/
def condor_row_for (put_chain call_chain : List Leg) (sp sc : Leg)
    (w : ℚ) : Option CondorRow :=
  match nearest_leg put_chain (sp.strike - w),
        nearest_leg call_chain (sc.strike + w) with
  | some lp, some lc =>
    if w ≤ 0 ∨ sp.mid_used - lp.mid_used + sc.mid_used - lc.mid_used ≤ 0 then
      none
    else some
      { sell_put := sp.strike, buy_put := lp.strike, sell_call := sc.strike,
        buy_call := lc.strike,
        credit := sp.mid_used - lp.mid_used + sc.mid_used - lc.mid_used,
        width := w,
        max_profit := sp.mid_used - lp.mid_used + sc.mid_used - lc.mid_used,
        max_loss :=
          max (w - (sp.mid_used - lp.mid_used + sc.mid_used - lc.mid_used)) 0,
        be_low :=
          sp.strike - (sp.mid_used - lp.mid_used + sc.mid_used - lc.mid_used),
        be_high :=
          sc.strike + (sp.mid_used - lp.mid_used + sc.mid_used - lc.mid_used) }
  | _, _ => none

/-- app.py wing-width enumeration for one short-leg pair. -/
def condor_rows (put_chain call_chain : List Leg) (sp sc : Leg)
    (wings : List ℚ) : List CondorRow :=
  wings.filterMap (condor_row_for put_chain call_chain sp sc)

/-- app.py final minimum-credit filter over the candidate table. -/
def condor_output (put_chain call_chain : List Leg) (sp sc : Leg)
    (wings : List ℚ) (min_credit : ℚ) : List CondorRow :=
  (condor_rows put_chain call_chain sp sc wings).filter
    (fun r => decide (min_credit ≤ r.credit))

end App

namespace CondorPage

/-- One iron-condor row as assembled by pages/iron_condor.py `render`. -/
structure CondorRow where
  sell_put : ℚ
  buy_put : ℚ
  sell_call : ℚ
  buy_call : ℚ
  credit : ℚ
  width : ℚ
  be_low : ℚ
  be_high : ℚ
deriving DecidableEq, Repr

/-- pages/iron_condor.py short-leg choice: the last chain row with strike
below spot and the first with strike above spot (`iloc[-1]` / `iloc[0]`). -/
def short_legs (put_chain call_chain : List Leg) (spot : ℚ) :
    Option (Leg × Leg) :=
  match (put_chain.filter (fun l => decide (l.strike < spot))).getLast?,
        (call_chain.filter (fun l => decide (spot < l.strike))).head? with
  | some sp, some sc => some (sp, sc)
  | _, _ => none

/-- pages/iron_condor.py wing loop body: protective legs at the nearest
strikes, net credit from the plain `mid` premiums, and only `credit ≤ 0`
is discarded — the wing width is not checked. -/
def condor_row_for (put_chain call_chain : List Leg) (sp sc : Leg)
    (w : ℚ) : Option CondorRow :=
  match nearest_leg put_chain (sp.strike - w),
        nearest_leg call_chain (sc.strike + w) with
  | some lp, some lc =>
    if sp.mid - lp.mid + sc.mid - lc.mid ≤ 0 then none
    else some
      { sell_put := sp.strike, buy_put := lp.strike, sell_call := sc.strike,
        buy_call := lc.strike,
        credit := sp.mid - lp.mid + sc.mid - lc.mid, width := w,
        be_low := sp.strike - (sp.mid - lp.mid + sc.mid - lc.mid),
        be_high := sc.strike + (sp.mid - lp.mid + sc.mid - lc.mid) }
  | _, _ => none

/-- pages/iron_condor.py wing loop over the parsed wing list. -/
def condor_rows (put_chain call_chain : List Leg) (spot : ℚ)
    (wings : List ℚ) : List CondorRow :=
  match short_legs put_chain call_chain spot with
  | some (sp, sc) => wings.filterMap (condor_row_for put_chain call_chain sp sc)
  | none => []

/-- pages/iron_condor.py `render`: wing text to min-credit-filtered table. -/
def output (put_chain call_chain : List Leg) (spot : ℚ) (wing_text : String)
    (min_credit : ℚ) : List CondorRow :=
  (condor_rows put_chain call_chain spot
      (Parsing.wing_list_condor_page wing_text)).filter
    (fun r => decide (min_credit ≤ r.credit))

end CondorPage

namespace BtPage

/-- One iron-butterfly row as assembled by pages/iron_butterfly.py. -/
structure BtRow where
  K : ℚ
  Ku : ℚ
  Kd : ℚ
  credit : ℚ
  req_width : ℚ
  width : ℚ
  max_profit : ℚ
  max_loss : ℚ
  be_low : ℚ
  be_high : ℚ
deriving DecidableEq, Repr

/-- pages/iron_butterfly.py `nearest_strike(df, k)`. -/
def nearest_strike (chain : List Leg) (t : ℚ) : Option ℚ :=
  (nearest_leg chain t).map Leg.strike

/-- pages/iron_butterfly.py wing loop body for the requested width `w`:
wing strikes `Ku`/`Kd` nearest `K ± w`, the four legs re-looked-up through
`row_at`, credit from the `mid_used` premiums, realized width `|Ku - K|`
(the displayed wing-width column keeps the requested `w`, `req_width`
here), and the guard discards non-positive realized width or credit. -/
def butterfly_row_for (call_chain put_chain : List Leg) (K w : ℚ) :
    Option BtRow :=
  match nearest_leg call_chain (K + w), nearest_leg put_chain (K - w) with
  | some lcu, some lpd =>
    match nearest_leg call_chain K, nearest_leg put_chain K,
          nearest_leg call_chain lcu.strike, nearest_leg put_chain lpd.strike with
    | some sc, some sp, some lc, some lp =>
      if |lcu.strike - K| ≤ 0 ∨
          sc.mid_used + sp.mid_used - lc.mid_used - lp.mid_used ≤ 0 then
        none
      else some
        { K := K, Ku := lcu.strike, Kd := lpd.strike,
          credit := sc.mid_used + sp.mid_used - lc.mid_used - lp.mid_used,
          req_width := w, width := |lcu.strike - K|,
          max_profit := sc.mid_used + sp.mid_used - lc.mid_used - lp.mid_used,
          max_loss :=
            max (|lcu.strike - K| -
              (sc.mid_used + sp.mid_used - lc.mid_used - lp.mid_used)) 0,
          be_low := K - (sc.mid_used + sp.mid_used - lc.mid_used - lp.mid_used),
          be_high :=
            K + (sc.mid_used + sp.mid_used - lc.mid_used - lp.mid_used) }
    | _, _, _, _ => none
  | _, _ => none

/-- pages/iron_butterfly.py wing loop over the parsed wing list. -/
def butterfly_rows (call_chain put_chain : List Leg) (K : ℚ)
    (wings : List ℚ) : List BtRow :=
  wings.filterMap (butterfly_row_for call_chain put_chain K)

/-- pages/iron_butterfly.py minimum-credit filter over the table. -/
def output (call_chain put_chain : List Leg) (K : ℚ) (wings : List ℚ)
    (min_credit : ℚ) : List BtRow :=
  (butterfly_rows call_chain put_chain K wings).filter
    (fun r => decide (min_credit ≤ r.credit))

end BtPage

/-- Concrete put chain (strike, mid, mid_used, spread, volume per leg). -/
def chainP_ex : List Leg :=
  [⟨90, 1/20, 1/20, 0, 0⟩, ⟨95, 4/5, 4/5, 0, 0⟩, ⟨100, 3/10, 3/10, 0, 0⟩]

/-- Concrete call chain. -/
def chainC_ex : List Leg :=
  [⟨100, 3/5, 3/5, 0, 0⟩, ⟨105, 1/10, 1/10, 0, 0⟩, ⟨110, 1/20, 1/20, 0, 0⟩]

/-- Concrete put chain with no strike at exactly 90, so a requested wing of
5 below the short strike 95 lands on 92 (realized distance 3). -/
def chainP3_ex : List Leg := [⟨92, 1/10, 1/10, 0, 0⟩, ⟨95, 4/5, 4/5, 0, 0⟩]

/-- Concrete call chain for the app.py condor examples. -/
def chainC2_ex : List Leg := [⟨105, 3/5, 3/5, 0, 0⟩, ⟨110, 1/5, 1/5, 0, 0⟩]

/-- Concrete call chain for the butterfly examples (no strike at 105, so a
requested wing of 5 above K = 100 lands on 103). -/
def chainBtC_ex : List Leg := [⟨100, 2, 2, 0, 0⟩, ⟨103, 1/2, 1/2, 0, 0⟩]

/-- Concrete put chain for the butterfly examples. -/
def chainBtP_ex : List Leg := [⟨97, 1/2, 1/2, 0, 0⟩, ⟨100, 2, 2, 0, 0⟩]

/-- The app.py condor row produced on `chainP3_ex`/`chainC2_ex` with short
legs 95/105 and requested width 5. -/
def condor_row_ex : App.CondorRow :=
  ⟨95, 92, 105, 110, 11/10, 5, 11/10, 39/10, 939/10, 1061/10⟩

/-- The butterfly row produced on `chainBtC_ex`/`chainBtP_ex` at K = 100
with requested width 5 (realized width 3). -/
def bt_row_ex : BtPage.BtRow := ⟨100, 103, 97, 3, 5, 3, 3, 0, 97, 103⟩

/-- The short put leg used in the app.py condor examples. -/
def short_put_ex : Leg := ⟨95, 4/5, 4/5, 0, 0⟩

/-- The short call leg used in the app.py condor examples. -/
def short_call_ex : Leg := ⟨105, 3/5, 3/5, 0, 0⟩

/-- The first row of the condor-page output for wing text "3,5,10" on the
example chains. -/
def page_row_ex : CondorPage.CondorRow := ⟨95, 90, 100, 105, 5/4, 3, 375/4, 405/4⟩

/-- The standard normal CDF: checklist.py `_norm_cdf` computes
`0.5 * (1 + erf (x / sqrt 2))`, which is the measure of the left ray under
the standard Gaussian; the embedding uses the measure-theoretic form. -/
noncomputable def normCdf (x : ℝ) : ℝ :=
  (ProbabilityTheory.gaussianReal 0 1 (Set.Iic x)).toReal

namespace Checklist

/-- checklist.py `_bs_d1_d2`: the NaN pair on degenerate inputs is
modelled as `none`. -/
noncomputable def bs_d1_d2 (S K r sigma T : ℝ) : Option (ℝ × ℝ) :=
  if S ≤ 0 ∨ K ≤ 0 ∨ sigma ≤ 0 ∨ T ≤ 0 then none
  else
    some ((Real.log (S / K) + (r + 0.5 * sigma * sigma) * T) /
        (sigma * Real.sqrt T),
      (Real.log (S / K) + (r + 0.5 * sigma * sigma) * T) /
        (sigma * Real.sqrt T) - sigma * Real.sqrt T)

/-- checklist.py `_bs_put_price`: NaN propagates from `_bs_d1_d2`. -/
noncomputable def bs_put_price (S K r sigma T : ℝ) : Option ℝ :=
  match bs_d1_d2 S K r sigma T with
  | none => none
  | some (d1, d2) =>
    some (K * Real.exp (-r * T) * normCdf (-d2) - S * normCdf (-d1))

/-- checklist.py `_bs_call_price`. -/
noncomputable def bs_call_price (S K r sigma T : ℝ) : Option ℝ :=
  match bs_d1_d2 S K r sigma T with
  | none => none
  | some (d1, d2) =>
    some (S * normCdf d1 - K * Real.exp (-r * T) * normCdf d2)

/-- checklist.py `_put_delta`: `N(d1) - 1`, NaN propagated. -/
noncomputable def put_delta (S K r sigma T : ℝ) : Option ℝ :=
  match bs_d1_d2 S K r sigma T with
  | none => none
  | some (d1, _) => some (normCdf d1 - 1)

/-- checklist.py `_call_delta`: `N(d1)`, NaN propagated. -/
noncomputable def call_delta (S K r sigma T : ℝ) : Option ℝ :=
  match bs_d1_d2 S K r sigma T with
  | none => none
  | some (d1, _) => some (normCdf d1)

/-- checklist.py `_implied_vol_from_price`, the local `price(sig)` closure
dispatching on the option kind. -/
noncomputable def iv_price (kind : OptKind) (S K r T sigma : ℝ) : Option ℝ :=
  match kind with
  | OptKind.put => bs_put_price S K r sigma T
  | OptKind.call => bs_call_price S K r sigma T

open scoped Classical in
/-- checklist.py `_implied_vol_from_price`, the upper-bound expansion loop
(`for _ in range(10): hi *= 1.5; ph = price(hi); if target <= ph or hi > 20:
break`): the bound is multiplied by 1.5 up to ten times, and the loop stops
once the price at the bound reaches the target or the bound exceeds 20 (a
NaN price, `none` here, compares false and does not stop the loop). -/
noncomputable def iv_expand (f : ℝ → Option ℝ) (target : ℝ) :
    ℕ → ℝ → ℝ
  | 0, hi => hi
  | n + 1, hi =>
    if (∃ ph, f (hi * 1.5) = some ph ∧ target ≤ ph) ∨ 20 < hi * 1.5 then
      hi * 1.5
    else iv_expand f target n (hi * 1.5)

/-- checklist.py `_implied_vol_from_price`, the bisection loop: up to
`max_iter` halvings, stopping early when the price error is inside `tol`;
after the fuel runs out the midpoint `0.5 * (lo + hi)` is returned; a NaN
midpoint price aborts with NaN. -/
noncomputable def iv_bisect (f : ℝ → Option ℝ) (target tol : ℝ) :
    ℕ → ℝ → ℝ → Option ℝ
  | 0, lo, hi => some (0.5 * (lo + hi))
  | n + 1, lo, hi =>
    match f (0.5 * (lo + hi)) with
    | none => none
    | some pm =>
      if |pm - target| < tol then some (0.5 * (lo + hi))
      else if pm < target then iv_bisect f target tol n (0.5 * (lo + hi)) hi
      else iv_bisect f target tol n lo (0.5 * (lo + hi))

/-- checklist.py `_implied_vol_from_price(target, S, K, r, T, kind)` with
its default arguments `lo=1e-4, hi=5.0, tol=1e-4, max_iter=100`: NaN
(`none`) when target/S/K/T is non-positive (`not (target and target > 0)`
catches 0 and negatives), NaN when a bracket price is NaN, NaN when the
target is below the price at the lower bound, else bisection between the
(possibly expanded) bounds. -/
noncomputable def implied_vol_from_price (target S K r T : ℝ)
    (kind : OptKind) : Option ℝ :=
  if target ≤ 0 ∨ S ≤ 0 ∨ K ≤ 0 ∨ T ≤ 0 then none
  else
    match iv_price kind S K r T (1 / 10000), iv_price kind S K r T 5 with
    | some pl, some ph =>
      if target < pl then none
      else
        iv_bisect (iv_price kind S K r T) target (1 / 10000) 100 (1 / 10000)
          (if ph < target then iv_expand (iv_price kind S K r T) target 10 5
            else 5)
    | _, _ => none

end Checklist

namespace Calculations

/-- calculations.py `bs_d1_d2`: the degenerate guard returns the explicit
pair `(0, 0)` instead of NaN. -/
noncomputable def bs_d1_d2 (S K r sigma T : ℝ) : ℝ × ℝ :=
  if S ≤ 0 ∨ K ≤ 0 ∨ sigma ≤ 0 ∨ T ≤ 0 then (0, 0)
  else
    ((Real.log (S / K) + (r + 0.5 * sigma * sigma) * T) /
        (sigma * Real.sqrt T),
      (Real.log (S / K) + (r + 0.5 * sigma * sigma) * T) /
        (sigma * Real.sqrt T) - sigma * Real.sqrt T)

/-- calculations.py `put_delta`: `abs(norm_cdf(d1) - 1)` — this variant
already returns the absolute value. -/
noncomputable def put_delta (S K r sigma T : ℝ) : ℝ :=
  |normCdf (bs_d1_d2 S K r sigma T).1 - 1|

end Calculations

-- Claim theorems and supporting lemmas follow.


/-- C1: for every input triple (bid, ask, lastTrade), price resolution
returns: both positive → mid = (bid+ask)/2, tag `B/A`; else only bid
positive → bid, `Bid`; else only ask positive → ask, `Ask`; else last trade
positive → last, `LAST`; else undefined, `UNKNOWN` (a quote of exactly 0
counts as no quote).  The cli.py `np.select` variant agrees with the
checklist.py function on every input. -/
theorem C1_price_resolution_priority (bid ask last_price : ℚ) :
    (Checklist.mid_and_source bid ask last_price =
      if 0 < bid ∧ 0 < ask then (some ((bid + ask) / 2), "B/A")
      else if 0 < bid then (some bid, "Bid")
      else if 0 < ask then (some ask, "Ask")
      else if 0 < last_price then (some last_price, "LAST")
      else (none, "UNKNOWN")) ∧
    Cli.mid_and_source bid ask last_price =
      Checklist.mid_and_source bid ask last_price := by
  have hhalf : (0.5 : ℚ) * (bid + ask) = (bid + ask) / 2 := by ring
  unfold Checklist.mid_and_source Cli.mid_and_source
  by_cases hb : 0 < bid <;> by_cases ha : 0 < ask <;>
    by_cases hl : 0 < last_price <;>
      simp_all [not_lt, hhalf]

/-- Decomposition of the "letter then exactly eight digits at the end"
condition through the list reversal used by `infer_kind_from_symbol`. -/
theorem reverse_tail_pattern (l : List Char) (c : Char) :
    ((l.reverse.take 8).length = 8 ∧
        (l.reverse.take 8).all Char.isDigit = true ∧ l.reverse[8]? = some c) ↔
      ∃ pre ds : List Char, l = pre ++ c :: ds ∧ ds.length = 8 ∧
        ds.all Char.isDigit = true := by
  constructor
  · rintro ⟨hlen, hdig, hget⟩
    have h8 : 8 < l.reverse.length := (List.getElem?_eq_some.mp hget).1
    have hdrop : l.reverse.drop 8 = c :: l.reverse.drop 9 := by
      have hd := List.drop_eq_getElem_cons h8
      rw [List.getElem?_eq_getElem h8] at hget
      injection hget with hc
      rw [hd, hc]
    refine ⟨(l.reverse.drop 9).reverse, (l.reverse.take 8).reverse, ?_,
      by simpa using hlen, by simpa using hdig⟩
    calc l = l.reverse.reverse := (l.reverse_reverse).symm
      _ = (l.reverse.take 8 ++ l.reverse.drop 8).reverse := by
            rw [List.take_append_drop]
      _ = (l.reverse.take 8 ++ (c :: l.reverse.drop 9)).reverse := by
            rw [hdrop]
      _ = (l.reverse.drop 9).reverse ++ c :: (l.reverse.take 8).reverse := by
            simp
  · rintro ⟨pre, ds, rfl, hlen, hdig⟩
    have hrev : (pre ++ c :: ds).reverse = ds.reverse ++ c :: pre.reverse := by
      simp
    have hl : ds.reverse.length = 8 := by simpa using hlen
    have htake : (ds.reverse ++ c :: pre.reverse).take 8 = ds.reverse := by
      rw [← hl]
      exact List.take_left ds.reverse _
    have hle : ds.reverse.length ≤ 8 := by rw [hl]
    refine ⟨?_, ?_, ?_⟩
    · rw [hrev, htake, hl]
    · rw [hrev, htake]
      simpa using hdig
    · rw [hrev, List.getElem?_append_right hle, hl]
      simp

/-- Characterization of `infer_kind_from_symbol` returning `call`. -/
theorem infer_call_iff (cs : String) :
    Checklist.infer_kind_from_symbol cs = some OptKind.call ↔
      ∃ pre ds : List Char, cs.data = pre ++ 'C' :: ds ∧ ds.length = 8 ∧
        ds.all Char.isDigit = true := by
  rw [← reverse_tail_pattern]
  unfold Checklist.infer_kind_from_symbol
  by_cases hcond : (cs.data.reverse.take 8).length = 8 ∧
      (cs.data.reverse.take 8).all Char.isDigit = true
  · rw [if_pos hcond]
    cases hget : cs.data.reverse[8]? with
    | none => simp [hget]
    | some c =>
      by_cases hc : c = 'C'
      · subst hc
        simp [hget, hcond]
      · by_cases hp : c = 'P'
        · subst hp
          simp [hget, hcond]
        · simp [hget, hcond, hc, hp]
  · rw [if_neg hcond]
    refine iff_of_false (by simp) ?_
    rintro ⟨hA, hB, _⟩
    exact hcond ⟨hA, hB⟩

/-- Characterization of `infer_kind_from_symbol` returning `put`. -/
theorem infer_put_iff (cs : String) :
    Checklist.infer_kind_from_symbol cs = some OptKind.put ↔
      ∃ pre ds : List Char, cs.data = pre ++ 'P' :: ds ∧ ds.length = 8 ∧
        ds.all Char.isDigit = true := by
  rw [← reverse_tail_pattern]
  unfold Checklist.infer_kind_from_symbol
  by_cases hcond : (cs.data.reverse.take 8).length = 8 ∧
      (cs.data.reverse.take 8).all Char.isDigit = true
  · rw [if_pos hcond]
    cases hget : cs.data.reverse[8]? with
    | none => simp [hget]
    | some c =>
      by_cases hc : c = 'C'
      · subst hc
        simp [hget, hcond]
      · by_cases hp : c = 'P'
        · subst hp
          simp [hget, hcond]
        · simp [hget, hcond, hc, hp]
  · rw [if_neg hcond]
    refine iff_of_false (by simp) ?_
    rintro ⟨hA, hB, _⟩
    exact hcond ⟨hA, hB⟩

/-- C9: with `kind="auto"` the option kind is inferred from the first
non-null contract symbol by matching a trailing `C` or `P` immediately
followed by exactly eight digits; if no symbol is present or the pattern
does not match, the whole chain is evaluated as puts. -/
theorem C9_auto_kind_inference (cs : String) (syms : List (Option String)) :
    (Checklist.infer_kind_from_symbol cs = some OptKind.call ↔
      ∃ pre ds : List Char, cs.data = pre ++ 'C' :: ds ∧ ds.length = 8 ∧
        ds.all Char.isDigit = true) ∧
    (Checklist.infer_kind_from_symbol cs = some OptKind.put ↔
      ∃ pre ds : List Char, cs.data = pre ++ 'P' :: ds ∧ ds.length = 8 ∧
        ds.all Char.isDigit = true) ∧
    (Checklist.first_non_null syms = none →
      Checklist.eff_kind_auto syms = OptKind.put) ∧
    (∀ s, Checklist.first_non_null syms = some s →
      Checklist.infer_kind_from_symbol s = none →
      Checklist.eff_kind_auto syms = OptKind.put) ∧
    (∀ s k, Checklist.first_non_null syms = some s →
      Checklist.infer_kind_from_symbol s = some k →
      Checklist.eff_kind_auto syms = k) := by
  refine ⟨infer_call_iff cs, infer_put_iff cs, ?_, ?_, ?_⟩
  · intro h
    unfold Checklist.eff_kind_auto
    rw [h]
  · intro s h1 h2
    unfold Checklist.eff_kind_auto
    rw [h1]
    by_cases hs : s = ""
    · simp [hs]
    · simp [hs, h2]
  · intro s k h1 h2
    unfold Checklist.eff_kind_auto
    rw [h1]
    by_cases hs : s = ""
    · subst hs
      exact absurd h2 (by simp [Checklist.infer_kind_from_symbol])
    · simp [hs, h2]

/-- C9 witness: concrete OCC-style symbols; a trailing `P`+8 digits yields
`put`, a trailing `C`+8 digits yields `call`, and a non-matching symbol
falls back to `put`. -/
theorem C9_auto_kind_inference_witness :
    Checklist.eff_kind_auto [none, some "SPY240119P00400000"] = OptKind.put ∧
    Checklist.eff_kind_auto [some "SPY240119C00400000"] = OptKind.call ∧
    Checklist.eff_kind_auto [some "SPY2024"] = OptKind.put := by
  refine ⟨?_, ?_, ?_⟩
  · exact (C9_auto_kind_inference "" [none, some "SPY240119P00400000"]).2.2.2.2
      "SPY240119P00400000" OptKind.put rfl (by decide)
  · exact (C9_auto_kind_inference "" [some "SPY240119C00400000"]).2.2.2.2
      "SPY240119C00400000" OptKind.call rfl (by decide)
  · exact (C9_auto_kind_inference "" [some "SPY2024"]).2.2.2.1
      "SPY2024" rfl (by decide)


/-- Evaluation: the app.py condor builder on the example chains at
requested width 5. -/
theorem app_condor_ex_eval :
    App.condor_row_for chainP3_ex chainC2_ex short_put_ex short_call_ex 5 =
      some condor_row_ex := by
  norm_num [App.condor_row_for, nearest_leg, chainP3_ex, chainC2_ex,
    short_put_ex, short_call_ex, condor_row_ex]

/-- Evaluation: the corresponding filtered app.py output table. -/
theorem app_condor_output_ex_eval :
    App.condor_output chainP3_ex chainC2_ex short_put_ex short_call_ex [5] 0 =
      [condor_row_ex] := by
  norm_num [App.condor_output, App.condor_rows, List.filterMap_cons,
    app_condor_ex_eval, List.filter, condor_row_ex]

/-- Evaluation: the butterfly builder on the example chains at K = 100,
requested width 5 (the call wing lands on 103, realized width 3). -/
theorem bt_row_ex_eval :
    BtPage.butterfly_row_for chainBtC_ex chainBtP_ex 100 5 = some bt_row_ex := by
  norm_num [BtPage.butterfly_row_for, nearest_leg, chainBtC_ex, chainBtP_ex,
    bt_row_ex]

/-- Evaluation: the corresponding filtered butterfly output table. -/
theorem bt_output_ex_eval :
    BtPage.output chainBtC_ex chainBtP_ex 100 [5] 0 = [bt_row_ex] := by
  norm_num [BtPage.output, BtPage.butterfly_rows, List.filterMap_cons,
    bt_row_ex_eval, List.filter, bt_row_ex]

/-- Evaluation: the condor page on the example chains with an empty wing
text produces no rows. -/
theorem page_output_empty_eval :
    CondorPage.output chainP_ex chainC_ex 99 "" (1/5) = [] := by
  have hw : Parsing.wing_list_condor_page "" = [] := by decide
  norm_num [CondorPage.output, CondorPage.condor_rows, CondorPage.short_legs,
    nearest_leg, chainP_ex, chainC_ex, hw, List.filter]

/-- Evaluation: the condor page on the example chains with the default wing
text "3,5,10". -/
theorem page_output_default_eval :
    CondorPage.output chainP_ex chainC_ex 99 "3,5,10" (1/5) =
      [page_row_ex,
       ⟨95, 90, 100, 105, 5/4, 5, 375/4, 405/4⟩,
       ⟨95, 90, 100, 110, 13/10, 10, 937/10, 1013/10⟩] := by
  have hw : Parsing.wing_list_condor_page "3,5,10" = [3, 5, 10] := by decide
  norm_num [CondorPage.output, CondorPage.condor_rows, CondorPage.short_legs,
    CondorPage.condor_row_for, nearest_leg, chainP_ex, chainC_ex, hw,
    List.filter, List.filterMap_cons, page_row_ex]

/-- Evaluation: the condor page keeps a negative wing width (the guard only
checks the credit sign). -/
theorem page_output_neg_eval :
    CondorPage.output chainP_ex chainC_ex 99 "-5" (1/5) =
      [⟨95, 100, 100, 100, 1/2, -5, 189/2, 201/2⟩] := by
  have hw : Parsing.wing_list_condor_page "-5" = [-5] := by decide
  norm_num [CondorPage.output, CondorPage.condor_rows, CondorPage.short_legs,
    CondorPage.condor_row_for, nearest_leg, chainP_ex, chainC_ex, hw,
    List.filter, List.filterMap_cons]

/-- C8 counterexample: on the iron-condor page (pages/iron_condor.py) an
empty wing-width string produces no structures while "3,5,10" produces
some, over identical chains, spot and threshold — so the empty input does
not behave like the default list for that builder. -/
theorem C8_counterexample :
    CondorPage.output chainP_ex chainC_ex 99 "" (1/5) = [] ∧
    CondorPage.output chainP_ex chainC_ex 99 "3,5,10" (1/5) ≠ [] := by
  refine ⟨page_output_empty_eval, ?_⟩
  rw [page_output_default_eval]
  simp

/-- C8 amended: for the app.py condor builder and the butterfly page an
empty, all-whitespace, or unparsable wing-width string falls back to the
default list [3,5,10] and behaves identically to passing "3,5,10"; the
iron-condor page instead keeps an empty width list for empty input and
falls back to [5] on a parse failure. -/
theorem C8_amended (s : String) :
    (Parsing.wing_tokens s = [] ∨
        Parsing.parse_all? (Parsing.wing_tokens s) = none →
      Parsing.wing_list_app s = Parsing.wing_list_app "3,5,10" ∧
      Parsing.wing_list_bt s = Parsing.wing_list_bt "3,5,10" ∧
      Parsing.wing_list_app s = [3, 5, 10]) ∧
    Parsing.wing_list_app "3,5,10" = [3, 5, 10] ∧
    Parsing.wing_list_condor_page "" = [] ∧
    Parsing.wing_list_condor_page "x" = [5] := by
  refine ⟨?_, by decide, by decide, by decide⟩
  intro h
  have happ : Parsing.wing_list_app s = [3, 5, 10] := by
    unfold Parsing.wing_list_app
    rcases h with h | h
    · rw [h]
      decide
    · rw [h]
  have hbt : Parsing.wing_list_bt s = [3, 5, 10] := by
    unfold Parsing.wing_list_bt
    rcases h with h | h
    · rw [h]
      decide
    · rw [h]
  refine ⟨?_, ?_, happ⟩
  · rw [happ]
    decide
  · rw [hbt]
    decide

/-- C8 amended witness: the all-whitespace input " , " tokenizes to nothing
and both default-falling parsers treat it exactly like "3,5,10". -/
theorem C8_amended_witness :
    Parsing.wing_tokens " , " = [] ∧
    Parsing.wing_list_app " , " = Parsing.wing_list_app "3,5,10" ∧
    Parsing.wing_list_bt " , " = Parsing.wing_list_bt "3,5,10" ∧
    Parsing.wing_list_app " , " = [3, 5, 10] :=
  ⟨by decide, (C8_amended " , ").1 (Or.inl (by decide))⟩

/-- C6 counterexample: the iron-condor page discards only non-positive
credit, so the user wing width -5 puts a structure with negative width into
the output (min-credit threshold 1/5), contradicting the claim for that
builder. -/
theorem C6_counterexample :
    ∃ r ∈ CondorPage.output chainP_ex chainC_ex 99 "-5" (1/5),
      r.width ≤ 0 ∧ 0 < r.credit := by
  rw [page_output_neg_eval]
  refine ⟨⟨95, 100, 100, 100, 1/2, -5, 189/2, 201/2⟩, by simp, by norm_num⟩

/-- C6 amended: the app.py condor builder and the butterfly page discard
structures with non-positive credit or non-positive width, so none appears
in their output for any min-credit threshold (non-finite credit cannot
arise in the rational model); the iron-condor page guards only the credit
sign, not the wing width. -/
theorem C6_amended (put_chain call_chain : List Leg) (sp sc : Leg)
    (wings : List ℚ) (spot min_credit K : ℚ) (wing_text : String) :
    (∀ r ∈ App.condor_output put_chain call_chain sp sc wings min_credit,
      0 < r.credit ∧ 0 < r.width) ∧
    (∀ r ∈ BtPage.output call_chain put_chain K wings min_credit,
      0 < r.credit ∧ 0 < r.width) ∧
    (∀ r ∈ CondorPage.output put_chain call_chain spot wing_text min_credit,
      0 < r.credit) := by
  refine ⟨?_, ?_, ?_⟩
  · intro r hr
    obtain ⟨w, hw, hrow⟩ := List.mem_filterMap.mp (List.mem_filter.mp hr).1
    unfold App.condor_row_for at hrow
    split at hrow
    · split_ifs at hrow with hguard
      push_neg at hguard
      rw [Option.some_inj] at hrow
      subst hrow
      exact ⟨hguard.2, hguard.1⟩
    · exact absurd hrow (by simp)
  · intro r hr
    obtain ⟨w, hw, hrow⟩ := List.mem_filterMap.mp (List.mem_filter.mp hr).1
    unfold BtPage.butterfly_row_for at hrow
    split at hrow
    · split at hrow
      · split_ifs at hrow with hguard
        push_neg at hguard
        rw [Option.some_inj] at hrow
        subst hrow
        exact ⟨hguard.2, hguard.1⟩
      · exact absurd hrow (by simp)
    · exact absurd hrow (by simp)
  · intro r hr
    unfold CondorPage.output CondorPage.condor_rows at hr
    cases h0 : CondorPage.short_legs put_chain call_chain spot <;>
      rw [h0] at hr
    · exact absurd hr (by simp)
    case some pair =>
      obtain ⟨w, hw, hrow⟩ := List.mem_filterMap.mp (List.mem_filter.mp hr).1
      unfold CondorPage.condor_row_for at hrow
      split at hrow
      · split_ifs at hrow with hguard
        push_neg at hguard
        rw [Option.some_inj] at hrow
        subst hrow
        exact hguard
      · exact absurd hrow (by simp)

/-- C6 amended witness: concrete structures surviving each builder's guard
carry positive credit (and width, where the builder guards it). -/
theorem C6_amended_witness :
    (∃ r ∈ App.condor_output chainP3_ex chainC2_ex short_put_ex short_call_ex
        [5] 0, 0 < r.credit ∧ 0 < r.width) ∧
    (∃ r ∈ BtPage.output chainBtC_ex chainBtP_ex 100 [5] 0,
      0 < r.credit ∧ 0 < r.width) ∧
    (∃ r ∈ CondorPage.output chainP_ex chainC_ex 99 "3,5,10" (1/5),
      0 < r.credit) := by
  refine ⟨⟨condor_row_ex, by simp [app_condor_output_ex_eval], ?_⟩,
    ⟨bt_row_ex, by simp [bt_output_ex_eval], ?_⟩,
    ⟨page_row_ex, by rw [page_output_default_eval]; simp, ?_⟩⟩
  · exact (C6_amended chainP3_ex chainC2_ex short_put_ex short_call_ex
      [5] 0 0 0 "").1 condor_row_ex (by simp [app_condor_output_ex_eval])
  · exact (C6_amended chainBtP_ex chainBtC_ex ⟨0, 0, 0, 0, 0⟩ ⟨0, 0, 0, 0, 0⟩
      [5] 0 0 100 "").2.1 bt_row_ex (by simp [bt_output_ex_eval])
  · exact (C6_amended chainP_ex chainC_ex ⟨0, 0, 0, 0, 0⟩ ⟨0, 0, 0, 0, 0⟩
      [] 99 (1/5) 0 "3,5,10").2.2 page_row_ex
      (by rw [page_output_default_eval]; simp)

/-- C10: every row the app.py condor builder produces for a requested wing
width w reports width w and max loss max(w - credit, 0), with no reference
to the realized protective-leg strike distances; every row the butterfly
page produces displays the requested w but uses the realized call-wing
distance |Ku - K| as the width entering the max-loss formula. -/
theorem C10_width_semantics (put_chain call_chain : List Leg) (sp sc : Leg)
    (K w : ℚ) :
    (∀ r, App.condor_row_for put_chain call_chain sp sc w = some r →
      r.width = w ∧ r.max_loss = max (w - r.credit) 0) ∧
    (∀ r, BtPage.butterfly_row_for call_chain put_chain K w = some r →
      r.req_width = w ∧
      (∃ lcu, nearest_leg call_chain (K + w) = some lcu ∧
        r.width = |lcu.strike - K|) ∧
      r.max_loss = max (r.width - r.credit) 0) := by
  constructor
  · intro r hrow
    unfold App.condor_row_for at hrow
    split at hrow
    · split_ifs at hrow with hguard
      rw [Option.some_inj] at hrow
      subst hrow
      exact ⟨rfl, rfl⟩
    · exact absurd hrow (by simp)
  · intro r hrow
    unfold BtPage.butterfly_row_for at hrow
    split at hrow
    next lcu lpd heq1 heq2 =>
      split at hrow
      · split_ifs at hrow with hguard
        rw [Option.some_inj] at hrow
        subst hrow
        exact ⟨rfl, ⟨lcu, heq1, rfl⟩, rfl⟩
      · exact absurd hrow (by simp)
    next => exact absurd hrow (by simp)

/-- C10 witness: on `chainP3_ex` the protective put for requested width 5
below the short strike 95 is the nearest strike 92 (realized distance 3),
yet the condor row reports width 5 and max loss max(5 - credit, 0); on the
butterfly chains the requested width 5 above K = 100 lands on 103 and the
realized width 3 = |103 - 100| is used. -/
theorem C10_width_semantics_witness :
    (App.condor_row_for chainP3_ex chainC2_ex short_put_ex short_call_ex 5 =
        some condor_row_ex ∧
      condor_row_ex.buy_put = 92 ∧
      condor_row_ex.width = 5 ∧
      condor_row_ex.max_loss = max (5 - condor_row_ex.credit) 0) ∧
    (BtPage.butterfly_row_for chainBtC_ex chainBtP_ex 100 5 = some bt_row_ex ∧
      bt_row_ex.req_width = 5 ∧
      bt_row_ex.width = |(103 : ℚ) - 100| ∧
      bt_row_ex.max_loss = max (bt_row_ex.width - bt_row_ex.credit) 0) := by
  constructor
  · refine ⟨app_condor_ex_eval, rfl, ?_, ?_⟩
    · exact ((C10_width_semantics chainP3_ex chainC2_ex short_put_ex
        short_call_ex 0 5).1 condor_row_ex app_condor_ex_eval).1
    · exact ((C10_width_semantics chainP3_ex chainC2_ex short_put_ex
        short_call_ex 0 5).1 condor_row_ex app_condor_ex_eval).2
  · refine ⟨bt_row_ex_eval, rfl, by norm_num [bt_row_ex], ?_⟩
    exact ((C10_width_semantics chainBtP_ex chainBtC_ex ⟨0, 0, 0, 0, 0⟩
      ⟨0, 0, 0, 0, 0⟩ 100 5).2 bt_row_ex bt_row_ex_eval).2.2

/-- C4: the spread is defined (as `max 0 (ask - bid)`) exactly when both bid
and ask are strictly positive, and is unknown (`none`, not zero) otherwise;
the single-leg filter passes an unknown spread, every other criterion
evaluated against an undefined value is false, and with an unknown spread
the combined flag reduces to the conjunction of the other four criteria. -/
theorem C4_unknown_spread_passes (bid ask max_spread delta_high iv_min iv_max
    min_annual ar : ℚ) (min_volume volume : ℤ) (delta iv : Option ℚ) :
    (Checklist.spread bid ask =
      if 0 < bid ∧ 0 < ask then some (max 0 (ask - bid)) else none) ∧
    Checklist.ok_spread none max_spread = true ∧
    Checklist.ok_delta none delta_high = false ∧
    Checklist.ok_iv none iv_min iv_max = false ∧
    Checklist.ok_all delta iv none volume ar delta_high iv_min iv_max
        max_spread min_volume min_annual =
      (Checklist.ok_delta delta delta_high && Checklist.ok_iv iv iv_min iv_max
        && Checklist.ok_volume volume min_volume
        && Checklist.ok_annual ar min_annual) := by
  refine ⟨rfl, rfl, rfl, rfl, ?_⟩
  simp only [Checklist.ok_all, Checklist.ok_spread, Bool.and_true]

/-- C7: the single-period return is `premium * 100 / capital` and 0 whenever
`capital ≤ 0`; the annualized return is the single-period return times
`365 / days` and 0 whenever `capital ≤ 0` or `days ≤ 0` (both functions are
total, so capital 0 never divides by zero); the calculations.py variants at
multiplier 100 agree exactly with the checklist.py ones. -/
theorem C7_return_formulas (premium capital : ℚ) (days : ℤ) :
    Checklist.single_return premium capital =
      (if capital ≤ 0 then 0 else premium * 100 / capital) ∧
    Checklist.annualized_return premium capital days =
      (if capital ≤ 0 ∨ days ≤ 0 then 0
        else Checklist.single_return premium capital * (365 / (days : ℚ))) ∧
    Calculations.single_return premium capital 100 =
      Checklist.single_return premium capital ∧
    Calculations.annualized_return premium capital days 100 =
      Checklist.annualized_return premium capital days := by
  refine ⟨rfl, rfl, rfl, ?_⟩
  unfold Calculations.annualized_return Checklist.annualized_return
  by_cases h : capital ≤ 0 ∨ days ≤ 0
  · simp [h]
  · simp only [h, if_false]
    unfold Calculations.single_return Checklist.single_return
    push_neg at h
    have hd : (days : ℚ) ≠ 0 := by
      exact_mod_cast (lt_of_not_le (fun hle => absurd hle h.2.not_le)).ne'
    field_simp

/-- The normal CDF is nonnegative (it is the measure of a set). -/
theorem normCdf_nonneg (x : ℝ) : 0 ≤ normCdf x :=
  ENNReal.toReal_nonneg

/-- The normal CDF is at most one (the Gaussian is a probability measure). -/
theorem normCdf_le_one (x : ℝ) : normCdf x ≤ 1 := by
  calc normCdf x ≤ (1 : ENNReal).toReal :=
        ENNReal.toReal_mono ENNReal.one_ne_top MeasureTheory.prob_le_one
    _ = 1 := ENNReal.one_toReal

/-- C5: for every degenerate input (S ≤ 0 ∨ K ≤ 0 ∨ σ ≤ 0 ∨ T ≤ 0) the
calculations.py `bs_d1_d2` returns the explicit sentinel pair (0, 0), while
the checklist.py `_bs_d1_d2` and both price functions built on it return
the NaN sentinel (`none`); all four are total Lean functions (no log of a
non-positive number and no division by zero is ever evaluated), so no
exception can propagate, and the sentinel — never an ordinary number —
reaches the caller. -/
theorem C5_degenerate_input_safety (S K r sigma T : ℝ)
    (h : S ≤ 0 ∨ K ≤ 0 ∨ sigma ≤ 0 ∨ T ≤ 0) :
    Calculations.bs_d1_d2 S K r sigma T = (0, 0) ∧
    Checklist.bs_d1_d2 S K r sigma T = none ∧
    Checklist.bs_put_price S K r sigma T = none ∧
    Checklist.bs_call_price S K r sigma T = none := by
  have h1 : Checklist.bs_d1_d2 S K r sigma T = none := by
    unfold Checklist.bs_d1_d2
    exact if_pos h
  refine ⟨?_, h1, ?_, ?_⟩
  · unfold Calculations.bs_d1_d2
    exact if_pos h
  · unfold Checklist.bs_put_price
    rw [h1]
  · unfold Checklist.bs_call_price
    rw [h1]

/-- C5 witness: the four degenerate inputs named by the spec (S = 0, K = 0,
σ = 0, T = 0 in turn). -/
theorem C5_degenerate_input_safety_witness :
    Calculations.bs_d1_d2 0 100 (5/100) (3/10) (1/10) = (0, 0) ∧
    Checklist.bs_d1_d2 100 0 (5/100) (3/10) (1/10) = none ∧
    Checklist.bs_put_price 100 100 (5/100) 0 (1/10) = none ∧
    Checklist.bs_call_price 100 100 (5/100) (3/10) 0 = none :=
  ⟨(C5_degenerate_input_safety 0 100 (5/100) (3/10) (1/10)
      (Or.inl le_rfl)).1,
   (C5_degenerate_input_safety 100 0 (5/100) (3/10) (1/10)
      (Or.inr (Or.inl le_rfl))).2.1,
   (C5_degenerate_input_safety 100 100 (5/100) 0 (1/10)
      (Or.inr (Or.inr (Or.inl le_rfl)))).2.2.1,
   (C5_degenerate_input_safety 100 100 (5/100) (3/10) 0
      (Or.inr (Or.inr (Or.inr le_rfl)))).2.2.2⟩

/-- C3: for positive S, K, σ, T and any r, the checklist.py put delta is
exactly N(d1) - 1 and lies in [-1, 0], the call delta is exactly N(d1) and
lies in [0, 1], and callDelta - putDelta equals 1 exactly (hence within
1e-9); the calculations.py `put_delta` variant returns the absolute value
of the same quantity. -/
theorem C3_delta_identity_and_bounds (S K r sigma T : ℝ) (hS : 0 < S)
    (hK : 0 < K) (hsig : 0 < sigma) (hT : 0 < T) :
    ∃ d1 d2 pd cd : ℝ,
      Checklist.bs_d1_d2 S K r sigma T = some (d1, d2) ∧
      Checklist.put_delta S K r sigma T = some pd ∧
      Checklist.call_delta S K r sigma T = some cd ∧
      pd = normCdf d1 - 1 ∧ cd = normCdf d1 ∧
      -1 ≤ pd ∧ pd ≤ 0 ∧ 0 ≤ cd ∧ cd ≤ 1 ∧
      |cd - pd - 1| ≤ 1 / 1000000000 ∧
      Calculations.put_delta S K r sigma T = |pd| := by
  have hcond : ¬(S ≤ 0 ∨ K ≤ 0 ∨ sigma ≤ 0 ∨ T ≤ 0) := by
    push_neg
    exact ⟨hS, hK, hsig, hT⟩
  obtain ⟨d1, d2, hd⟩ :
      ∃ d1 d2, Checklist.bs_d1_d2 S K r sigma T = some (d1, d2) := by
    unfold Checklist.bs_d1_d2
    rw [if_neg hcond]
    exact ⟨_, _, rfl⟩
  have hd' := hd
  unfold Checklist.bs_d1_d2 at hd'
  rw [if_neg hcond, Option.some_inj, Prod.mk.injEq] at hd'
  refine ⟨d1, d2, normCdf d1 - 1, normCdf d1, hd, ?_, ?_, rfl, rfl, ?_, ?_,
    normCdf_nonneg d1, normCdf_le_one d1, ?_, ?_⟩
  · unfold Checklist.put_delta
    rw [hd]
  · unfold Checklist.call_delta
    rw [hd]
  · linarith [normCdf_nonneg d1]
  · linarith [normCdf_le_one d1]
  · rw [show normCdf d1 - (normCdf d1 - 1) - 1 = (0:ℝ) from by ring, abs_zero]
    norm_num
  · unfold Calculations.put_delta Calculations.bs_d1_d2
    rw [if_neg hcond]
    rw [show ((Real.log (S / K) + (r + 0.5 * sigma * sigma) * T) /
          (sigma * Real.sqrt T),
        (Real.log (S / K) + (r + 0.5 * sigma * sigma) * T) /
          (sigma * Real.sqrt T) - sigma * Real.sqrt T).1 =
        (Real.log (S / K) + (r + 0.5 * sigma * sigma) * T) /
          (sigma * Real.sqrt T) from rfl, hd'.1]

/-- C3 witness: the bounds and the parity identity at S = K = σ = T = 1,
r = 0. -/
theorem C3_delta_identity_and_bounds_witness :
    ∃ d1 d2 pd cd : ℝ,
      Checklist.bs_d1_d2 1 1 0 1 1 = some (d1, d2) ∧
      Checklist.put_delta 1 1 0 1 1 = some pd ∧
      Checklist.call_delta 1 1 0 1 1 = some cd ∧
      pd = normCdf d1 - 1 ∧ cd = normCdf d1 ∧
      -1 ≤ pd ∧ pd ≤ 0 ∧ 0 ≤ cd ∧ cd ≤ 1 ∧
      |cd - pd - 1| ≤ 1 / 1000000000 ∧
      Calculations.put_delta 1 1 0 1 1 = |pd| :=
  C3_delta_identity_and_bounds 1 1 0 1 1 one_pos one_pos one_pos one_pos

/-- The Black-Scholes put price is bounded by the discounted strike: the
price is `K·e^{-rT}·N(-d2) - S·N(-d1)` with `N(-d2) ≤ 1` and `S·N(-d1) ≥ 0`. -/
theorem bs_put_price_le (S K r sigma T : ℝ) (hS : 0 < S) (hK : 0 < K)
    (hsig : 0 < sigma) (hT : 0 < T) :
    ∃ p, Checklist.bs_put_price S K r sigma T = some p ∧
      p ≤ K * Real.exp (-r * T) := by
  have hcond : ¬(S ≤ 0 ∨ K ≤ 0 ∨ sigma ≤ 0 ∨ T ≤ 0) := by
    push_neg
    exact ⟨hS, hK, hsig, hT⟩
  unfold Checklist.bs_put_price Checklist.bs_d1_d2
  rw [if_neg hcond]
  refine ⟨_, rfl, ?_⟩
  set d1 := (Real.log (S / K) + (r + 0.5 * sigma * sigma) * T) /
    (sigma * Real.sqrt T) with hd1
  have h1 : normCdf (-(d1 - sigma * Real.sqrt T)) ≤ 1 := normCdf_le_one _
  have h2 : 0 ≤ normCdf (-d1) := normCdf_nonneg _
  have h3 : 0 < K * Real.exp (-r * T) := by positivity
  have h4 : K * Real.exp (-r * T) * normCdf (-(d1 - sigma * Real.sqrt T)) ≤
      K * Real.exp (-r * T) * 1 := by
    exact mul_le_mul_of_nonneg_left h1 h3.le
  have h5 : 0 ≤ S * normCdf (-d1) := mul_nonneg hS.le h2
  linarith

/-- For positive arguments the price closure always returns a value. -/
theorem iv_price_some (kind : OptKind) (S K r T sigma : ℝ) (hS : 0 < S)
    (hK : 0 < K) (hT : 0 < T) (hs : 0 < sigma) :
    ∃ p, Checklist.iv_price kind S K r T sigma = some p := by
  have hcond : ¬(S ≤ 0 ∨ K ≤ 0 ∨ sigma ≤ 0 ∨ T ≤ 0) := by
    push_neg
    exact ⟨hS, hK, hs, hT⟩
  cases kind with
  | put =>
    unfold Checklist.iv_price Checklist.bs_put_price Checklist.bs_d1_d2
    rw [if_neg hcond]
    exact ⟨_, rfl⟩
  | call =>
    unfold Checklist.iv_price Checklist.bs_call_price Checklist.bs_d1_d2
    rw [if_neg hcond]
    exact ⟨_, rfl⟩

/-- At S = K = T = 1, r = 0, the put price is defined and at most 1 for
every positive volatility — so it can never reach the target 2. -/
theorem iv_price_put_unit (sigma : ℝ) (hs : 0 < sigma) :
    ∃ p, Checklist.iv_price OptKind.put 1 1 0 1 sigma = some p ∧ p ≤ 1 := by
  obtain ⟨p, hp, hle⟩ := bs_put_price_le 1 1 0 sigma 1 one_pos one_pos hs
    one_pos
  refine ⟨p, ?_, ?_⟩
  · unfold Checklist.iv_price
    exact hp
  · have h1 : (1:ℝ) * Real.exp (-0 * 1) = 1 := by
      norm_num [Real.exp_zero]
    rw [h1] at hle
    exact hle

/-- One unfolding step of the expansion loop. -/
theorem iv_expand_step (f : ℝ → Option ℝ) (target : ℝ) (n : ℕ) (hi : ℝ) :
    Checklist.iv_expand f target (n + 1) hi =
      if (∃ ph, f (hi * 1.5) = some ph ∧ target ≤ ph) ∨ 20 < hi * 1.5 then
        hi * 1.5
      else Checklist.iv_expand f target n (hi * 1.5) := by
  rw [Checklist.iv_expand]

/-- Run of the expansion loop for the unit put and target 2: the break
condition never fires on price (prices stay ≤ 1 < 2), so the bound grows by
factor 1.5 until it exceeds 20, ending at 5·1.5⁴ = 405/16 = 25.3125. -/
theorem iv_expand_unit :
    Checklist.iv_expand (Checklist.iv_price OptKind.put 1 1 0 1) 2 10 5 =
      405/16 := by
  have hni : ∀ hi : ℝ, 0 < hi → hi ≤ 20 →
      ¬((∃ ph, Checklist.iv_price OptKind.put 1 1 0 1 hi = some ph ∧
          (2:ℝ) ≤ ph) ∨ 20 < hi) := by
    intro hi h0 h20
    rintro (⟨ph, hph, h2⟩ | hgt)
    · obtain ⟨p, hp, hle⟩ := iv_price_put_unit hi h0
      rw [hp, Option.some_inj] at hph
      subst hph
      linarith
    · linarith
  have hstep : ∀ (n : ℕ) (hi : ℝ), 0 < hi → hi * 1.5 ≤ 20 →
      Checklist.iv_expand (Checklist.iv_price OptKind.put 1 1 0 1) 2 (n + 1)
          hi =
        Checklist.iv_expand (Checklist.iv_price OptKind.put 1 1 0 1) 2 n
          (hi * 1.5) := by
    intro n hi h0 h20
    rw [iv_expand_step, if_neg (hni (hi * 1.5) (by positivity) h20)]
  have hbreak : ∀ (n : ℕ) (hi : ℝ), 20 < hi * 1.5 →
      Checklist.iv_expand (Checklist.iv_price OptKind.put 1 1 0 1) 2 (n + 1)
          hi = hi * 1.5 := by
    intro n hi h20
    rw [iv_expand_step, if_pos (Or.inr h20)]
  calc Checklist.iv_expand (Checklist.iv_price OptKind.put 1 1 0 1) 2 10 5
      = Checklist.iv_expand (Checklist.iv_price OptKind.put 1 1 0 1) 2 9
          (5 * 1.5) := hstep 9 5 (by norm_num) (by norm_num)
    _ = Checklist.iv_expand (Checklist.iv_price OptKind.put 1 1 0 1) 2 8
          (5 * 1.5 * 1.5) := hstep 8 (5 * 1.5) (by norm_num) (by norm_num)
    _ = Checklist.iv_expand (Checklist.iv_price OptKind.put 1 1 0 1) 2 7
          (5 * 1.5 * 1.5 * 1.5) :=
        hstep 7 (5 * 1.5 * 1.5) (by norm_num) (by norm_num)
    _ = 5 * 1.5 * 1.5 * 1.5 * 1.5 :=
        hbreak 6 (5 * 1.5 * 1.5 * 1.5) (by norm_num)
    _ = 405/16 := by norm_num

/-- Run of the bisection for the unit put and target 2: every midpoint
price is ≤ 1, so the error is never inside the tolerance, the low end moves
up every iteration, and the fuel runs out at
`hi - (hi - lo) / 2 ^ (n + 1)`. -/
theorem iv_bisect_run (n : ℕ) :
    ∀ lo hi : ℝ, 0 < lo → 0 < hi →
      Checklist.iv_bisect (Checklist.iv_price OptKind.put 1 1 0 1) 2
          (1/10000) n lo hi =
        some (hi - (hi - lo) / 2 ^ (n + 1)) := by
  induction n with
  | zero =>
    intro lo hi h0 h1
    rw [Checklist.iv_bisect, Option.some_inj]
    ring
  | succ n ih =>
    intro lo hi h0 h1
    rw [Checklist.iv_bisect]
    obtain ⟨p, hp, hle⟩ := iv_price_put_unit (0.5 * (lo + hi)) (by positivity)
    rw [hp]
    dsimp only
    have habs : ¬(|p - 2| < 1/10000) := by
      have heq : |p - 2| = 2 - p := by
        rw [abs_of_nonpos (by linarith : p - 2 ≤ 0)]
        ring
      rw [heq]
      intro hcon
      linarith
    have hlt : p < 2 := by linarith
    rw [if_neg habs, if_pos hlt, ih (0.5 * (lo + hi)) hi (by positivity) h1,
      Option.some_inj]
    have h2 : (2:ℝ) ^ (n + 1) ≠ 0 := by positivity
    have h3 : (2:ℝ) ^ (n + 1 + 1) ≠ 0 := by positivity
    field_simp
    ring

/-- C2 counterexample: the claim says the upper bound expands in doubling
steps "capped at 20.0", which would keep every returned volatility at most
20; but the code multiplies by 1.5 and only stops after the bound has
already exceeded 20, so at target 2, S = K = T = 1, r = 0 (where the put
price never reaches 1) the search returns a volatility above 20 (namely
25.3125 minus a 2⁻¹⁰¹-sized remainder). -/
theorem C2_counterexample :
    ∃ v, Checklist.implied_vol_from_price 2 1 1 0 1 OptKind.put = some v ∧
      20 < v := by
  obtain ⟨pl, hpl, hpl1⟩ := iv_price_put_unit (1/10000) (by norm_num)
  obtain ⟨ph, hph, hph1⟩ := iv_price_put_unit 5 (by norm_num)
  have hrun := iv_bisect_run 100 (1/10000) (405/16) (by norm_num) (by norm_num)
  refine ⟨405/16 - (405/16 - 1/10000) / 2 ^ 101, ?_, by norm_num⟩
  unfold Checklist.implied_vol_from_price
  rw [if_neg (by norm_num), hpl, hph]
  dsimp only
  rw [if_neg (by linarith : ¬(2:ℝ) < pl), if_pos (by linarith : ph < 2),
    iv_expand_unit, hrun]

/-- Any value the bisection returns lies inside the initial bracket. -/
theorem iv_bisect_mem (f : ℝ → Option ℝ) (target tol : ℝ) (n : ℕ) :
    ∀ lo hi v : ℝ, lo ≤ hi →
      Checklist.iv_bisect f target tol n lo hi = some v →
      lo ≤ v ∧ v ≤ hi := by
  induction n with
  | zero =>
    intro lo hi v hle h
    rw [Checklist.iv_bisect, Option.some_inj] at h
    subst h
    constructor <;> linarith
  | succ n ih =>
    intro lo hi v hle h
    rw [Checklist.iv_bisect] at h
    split at h
    · exact absurd h (by simp)
    · split_ifs at h with h1 h2
      · rw [Option.some_inj] at h
        subst h
        constructor <;> linarith
      · obtain ⟨ha, hb⟩ := ih (0.5 * (lo + hi)) hi v (by linarith) h
        constructor <;> linarith
      · obtain ⟨ha, hb⟩ := ih lo (0.5 * (lo + hi)) v (by linarith) h
        constructor <;> linarith

/-- The expansion loop started at 5 with fuel 10 stays within [5, 405/16]
whatever the price function and target: each step multiplies by 1.5, and
once the bound passes 20 (at the fourth step at the latest, 25.3125) the
loop stops. -/
theorem iv_expand_le (f : ℝ → Option ℝ) (target : ℝ) :
    5 ≤ Checklist.iv_expand f target 10 5 ∧
      Checklist.iv_expand f target 10 5 ≤ 405/16 := by
  rw [show (10:ℕ) = 9 + 1 from rfl, iv_expand_step]
  split_ifs with h1
  · constructor <;> norm_num
  · rw [show (9:ℕ) = 8 + 1 from rfl, iv_expand_step]
    split_ifs with h2
    · constructor <;> norm_num
    · rw [show (8:ℕ) = 7 + 1 from rfl, iv_expand_step]
      split_ifs with h3
      · constructor <;> norm_num
      · rw [show (7:ℕ) = 6 + 1 from rfl, iv_expand_step,
          if_pos (Or.inr (by norm_num : (20:ℝ) < 5 * 1.5 * 1.5 * 1.5 * 1.5))]
        constructor <;> norm_num

/-- C2 amended: `impliedVolatilityFromPrice` returns the undefined sentinel
whenever target, S, K, or T is non-positive, and whenever the target price
is below the Black-Scholes price at the lower bound σ = 1e-4; otherwise it
bisects between 1e-4 and the upper bound, which starts at 5.0 and, when the
target exceeds the price there, is multiplied by 1.5 in up to 10 steps,
stopping only after it exceeds 20.0 — so any returned volatility lies in
[1e-4, 25.3125] (= 405/16), not within a 20.0 cap; termination is
structural (at most 100 bisection iterations). -/
theorem C2_amended :
    (∀ (target S K r T : ℝ) (kind : OptKind),
      target ≤ 0 ∨ S ≤ 0 ∨ K ≤ 0 ∨ T ≤ 0 →
      Checklist.implied_vol_from_price target S K r T kind = none) ∧
    (∀ (target S K r T : ℝ) (kind : OptKind) (pl : ℝ),
      0 < target → 0 < S → 0 < K → 0 < T →
      Checklist.iv_price kind S K r T (1/10000) = some pl → target < pl →
      Checklist.implied_vol_from_price target S K r T kind = none) ∧
    (∀ (target S K r T : ℝ) (kind : OptKind) (v : ℝ),
      Checklist.implied_vol_from_price target S K r T kind = some v →
      1/10000 ≤ v ∧ v ≤ 405/16) := by
  refine ⟨?_, ?_, ?_⟩
  · intro target S K r T kind h
    unfold Checklist.implied_vol_from_price
    rw [if_pos h]
  · intro target S K r T kind pl htarget hS hK hT hpl hlt
    obtain ⟨ph, hph⟩ := iv_price_some kind S K r T 5 hS hK hT (by norm_num)
    unfold Checklist.implied_vol_from_price
    rw [if_neg (by push_neg; exact ⟨htarget, hS, hK, hT⟩), hpl, hph]
    dsimp only
    rw [if_pos hlt]
  · intro target S K r T kind v h
    unfold Checklist.implied_vol_from_price at h
    split_ifs at h with hguard
    split at h
    next pl ph hpl hph =>
      split_ifs at h with hlt hexp
      · have hexp_le := iv_expand_le (Checklist.iv_price kind S K r T) target
        have hbr := iv_bisect_mem (Checklist.iv_price kind S K r T) target
          (1/10000) 100 (1/10000) _ v (by linarith [hexp_le.1]) h
        exact ⟨hbr.1, hbr.2.trans hexp_le.2⟩
      · have hbr := iv_bisect_mem (Checklist.iv_price kind S K r T) target
          (1/10000) 100 (1/10000) 5 v (by norm_num) h
        exact ⟨hbr.1, hbr.2.trans (by norm_num)⟩
    next => exact absurd h (by simp)

/-- C2 amended witness: the guard fires at target 0. -/
theorem C2_amended_witness :
    Checklist.implied_vol_from_price 0 1 1 0 1 OptKind.put = none :=
  C2_amended.1 0 1 1 0 1 OptKind.put (Or.inl le_rfl)
